import Mathlib

/-!
Shallow embedding of `src/main/sensors/esc_sensor.c` (HeliFlight ESC telemetry
subsystem) and verification of its specification claims.

Modelling conventions:
* C unsigned integers are modelled as `ℕ` with explicit `% 2^w` at the points
  where the C code can overflow or truncate (`uint8_t` assignment, `uint16_t`
  counters); C signed integers are modelled as `ℤ`.
* C `float` arithmetic in the Hobbywing decoding path is modelled over `ℚ`.
  Every value a claim depends on is an exact small integer, at which the
  binary32 computation performed by the C code is exact as well.
* The per-motor array `escSensorData[]` is modelled as a total function
  `ℕ → EscSensorData`; the C array accesses in the modelled code are all
  guarded by `motorNumber < getMotorCount()`.
* Fallible computations (the out-of-bounds calibration-table read reachable
  in `calcTempHW`) return `Option`.
* Constants declared in headers that are not part of the provided sources
  (`esc_sensor.h`) are modelled from the spec and marked as such.
-/

set_option maxRecDepth 8192

namespace EscSensor

/-- Modelled from the spec: the "invalid" staleness sentinel `ESC_DATA_INVALID`
(declared in `esc_sensor.h`, which is not among the provided sources).  The
spec says staleness "saturates at a defined invalid sentinel"; the counter is
a `uint8_t` per the struct layout documented in the source (lines 590-595),
so the sentinel is the saturation point of that type, 255. -/
def escDataInvalid : ℕ := 255

/-- Modelled from the spec: the KISS validity threshold `ESC_BATTERY_AGE_MAX`
(declared outside the provided sources).  The spec says a motor's KISS data is
"valid iff staleness ≤ a fixed maximum age threshold"; the threshold value 10
is consistent with the Hobbywing bounds the source spells out (10/100). -/
def escBatteryAgeMax : ℕ := 10

/-- Modelled from the spec: the distinguished motor index `ESC_SENSOR_COMBINED`
selecting the combined reading (declared outside the provided sources).  It is
an index no physical motor can take; the motor count fits in a `uint8_t` and
is bounded by `MAX_SUPPORTED_MOTORS`, so the sentinel is 255. -/
def escSensorCombined : ℕ := 255

/-- Modelled from the spec: `MAX_SUPPORTED_MOTORS` (declared outside the
provided sources); the motor-control collaborator reports at most this many
motors. -/
def maxSupportedMotors : ℕ := 8

/-- `TELEMETRY_FRAME_SIZE`: a KISS frame is 10 bytes. -/
def telemetryFrameSize : ℕ := 10

/-- `ESC_BOOTTIME`: boot-settle threshold in ms. -/
def escBoottime : ℕ := 5000

/-- `ESC_REQUEST_TIMEOUT`: KISS per-request timeout in ms. -/
def escRequestTimeout : ℕ := 100

/-- One CRC8 step, `updateCrc8(crc, crc_seed)` from the source: XOR the two
bytes, then 8 rounds of shift-and-conditionally-XOR-0x07.  The C locals are
`uint8_t`, so every assignment truncates to 8 bits. -/
def updateCrc8 (crc crc_seed : ℕ) : ℕ :=
  let round : ℕ → ℕ := fun v =>
    if v &&& 0x80 ≠ 0 then (0x7 ^^^ (v <<< 1)) % 256 else (v <<< 1) % 256
  round^[8] ((crc % 256) ^^^ (crc_seed % 256))

/-- `calculateCrc8(Buf, BufLen)` from the source: fold `updateCrc8` over the
buffer with seed 0.  Note the source passes the running value as the
`crc_seed` argument and the new byte as `crc`. -/
def calculateCrc8 (buf : List ℕ) : ℕ :=
  buf.foldl (fun crc b => updateCrc8 b crc) 0

/-- The CRC8 algorithm exactly as the spec words it (§4.1): seed 0; for each
byte, XOR the byte into the running value, then apply 8 rounds of: if the
high bit is set, `(value << 1) XOR 0x07`, else `value << 1`, each round
truncated to 8 bits. -/
def crc8SpecAlgorithm (bytes : List ℕ) : ℕ :=
  let round : ℕ → ℕ := fun v =>
    if v &&& 0x80 ≠ 0 then ((v <<< 1) ^^^ 0x7) % 256 else (v <<< 1) % 256
  bytes.foldl (fun v b => round^[8] (v ^^^ b)) 0

/-- `calcCurrHW(currentRaw)`: dead-zone-compensated linear current model.
The C function computes in `float`; over the claim-relevant inputs the model
in `ℚ` agrees exactly. -/
def calcCurrHW (currentRaw : ℕ) : ℚ :=
  if 28 < currentRaw then ((currentRaw : ℚ) - 28) / 610 else 0

/-- The 26-entry Hobbywing temperature calibration table `tempFunc` from
`calcTempHW`, as (breakpoint, temperature) pairs. -/
def tempFunc : List (ℕ × ℕ) :=
  [(0, 1), (14, 2), (28, 3), (58, 5), (106, 8), (158, 11), (234, 15),
   (296, 18), (362, 21), (408, 23), (505, 27), (583, 30), (664, 33),
   (720, 35), (807, 38), (897, 41), (1021, 45), (1150, 49), (1315, 54),
   (1855, 70), (1978, 74), (2239, 82), (2387, 87), (2472, 90), (2656, 97),
   (2705, 99)]

/-- Breakpoint (first column) of table row `i`; rows past the end read as 0,
but every claim-relevant access is bounds-checked before use. -/
def tempBreak (i : ℕ) : ℕ := (tempFunc.getD i (0, 0)).1

/-- Temperature (second column) of table row `i`. -/
def tempVal (i : ℕ) : ℕ := (tempFunc.getD i (0, 0)).2

/-- The breakpoint-search loop of `calcTempHW`:
`while (i < 26 && tempRaw >= tempFunc[i][0]) i++`.
The guard `i < 26` bounds the body to at most 26 executions starting from
`i = 0`, so 26 units of structural fuel reproduce the while loop exactly. -/
def tempSearchLoop : ℕ → ℕ → ℕ → ℕ
  | 0, _, i => i
  | fuel + 1, t, i =>
      if i < 26 ∧ tempBreak i ≤ t then tempSearchLoop fuel t (i + 1) else i

/-- Final value of the search index `i` in `calcTempHW` for transformed
input `t`. -/
def tempSearch (t : ℕ) : ℕ := tempSearchLoop 26 t 0

/-- `calcTempHW(tempRaw)`: boundary clamps, then table search and linear
interpolation.  The source indexes `tempFunc[i]` and `tempFunc[i-1]` after
the loop without a bounds check; when the loop exits with `i = 26` (which
happens for `tempRaw = 1123`) the read `tempFunc[26]` is past the end of the
array, so the result is undefined — modelled as `none`.  The C arithmetic is
`float`; at every claim-relevant input the computation is exact, and the `ℚ`
model agrees with it there. -/
def calcTempHW (tempRaw : ℕ) : Option ℚ :=
  if 3828 < tempRaw then some 0
  else if tempRaw < 1123 then some 100
  else
    let t := 3828 - tempRaw
    let i := tempSearch t
    if i < 26 then
      some ((tempVal (i - 1) : ℚ) +
        ((tempVal i : ℚ) - (tempVal (i - 1) : ℚ)) *
          ((t : ℚ) - (tempBreak (i - 1) : ℚ)) /
          ((tempBreak i : ℚ) - (tempBreak (i - 1) : ℚ)))
    else none

/-- `calcEscRpm(erpm)`: electrical to mechanical RPM via the configured pole
count (supplied here as a parameter, since `motorConfig()` is an external
collaborator).  C `int` division truncates toward zero, i.e. `Int.tdiv`;
`motorPoleCount` is a `uint8_t`, so `/ 2` is truncating `ℕ` division. -/
def calcEscRpm (erpm : ℤ) (motorPoleCount : ℕ) : ℤ :=
  Int.tdiv (erpm * 100) ((motorPoleCount / 2 : ℕ) : ℤ)

/-- The RPM conversion exactly as the spec words it (§4.8):
`mechanical_rpm(electrical_rpm, pole_count) = electrical_rpm * 100 /
(pole_count / 2)`, both divisions truncating. -/
def mechanicalRpmSpec (electricalRpm : ℤ) (poleCount : ℕ) : ℤ :=
  Int.tdiv (electricalRpm * 100) ((poleCount / 2 : ℕ) : ℤ)

/-- State of the Hobbywing V4 stream parser: the 18-byte scratch packet, the
resynchronisation counter `bytesRead` and the poison counter `skipPackets`. -/
structure HWParser where
  telemetryData : List ℕ
  bytesRead : ℕ
  skipPackets : ℕ
  deriving DecidableEq, Repr

/-- Initial parser state: `telemetryData[18] = {0}`, `bytesRead = 0`,
`skipPackets = 0`. -/
def hwParserInit : HWParser :=
  { telemetryData := List.replicate 18 0, bytesRead := 0, skipPackets := 0 }

/-- `processHWv4TelemetryStream(dataByte)` from the source: one byte of the
sentinel-delimited stream framer.  Returns the new parser state and whether a
complete 18-byte packet was just emitted. -/
def processHWv4TelemetryStream (st : HWParser) (dataByte : ℕ) : HWParser × Bool :=
  if 0 < st.skipPackets then
    ({ st with skipPackets := st.skipPackets - 1 }, false)
  else if st.bytesRead = 0 ∧ dataByte = 0x9B then
    ({ st with bytesRead := 1 }, false)
  else if st.bytesRead = 1 ∧ dataByte = 0x9B then
    ({ st with bytesRead := 0, skipPackets := 11 }, false)
  else if 0 < st.bytesRead then
    let st' := { st with
      telemetryData := st.telemetryData.set (st.bytesRead - 1) (dataByte % 256),
      bytesRead := st.bytesRead + 1 }
    if st.bytesRead + 1 = 19 then ({ st' with bytesRead := 0 }, true)
    else (st', false)
  else
    (st, false)

/-- Run the parser over a byte list, recording whether any step emitted a
complete packet. -/
def hwRun (st : HWParser) : List ℕ → HWParser × Bool
  | [] => (st, false)
  | b :: rest =>
      let s := processHWv4TelemetryStream st b
      let r := hwRun s.1 rest
      (r.1, s.2 || r.2)

/-- `escSensorData_t`: one per-motor sensor reading.  Modelled from the spec
(§3) for the field domains, since `esc_sensor.h` is not among the provided
sources: staleness and the unsigned fields as `ℕ`, the signed fields as `ℤ`
(the source comment at lines 590-595 documents the concrete C widths). -/
structure EscSensorData where
  dataAge : ℕ
  temperature : ℤ
  voltage : ℕ
  current : ℤ
  consumption : ℤ
  rpm : ℕ
  deriving DecidableEq, Repr

/-- The all-zero reading. -/
def zeroSensorData : EscSensorData :=
  { dataAge := 0, temperature := 0, voltage := 0, current := 0,
    consumption := 0, rpm := 0 }

/-- `escSensorTriggerState_t`. -/
inductive EscTriggerState where
  | startup
  | ready
  | pending
  deriving DecidableEq, Repr

/-- `escTlmFrameState_t`. -/
inductive EscFrameStatus where
  | framePending
  | frameComplete
  | frameFailed
  deriving DecidableEq, Repr

/-- `escSensorProtocol` configuration values. -/
inductive EscProtocol where
  | kiss
  | hobbywingV4
  deriving DecidableEq, Repr

/-- The mutable state of the telemetry subsystem: the KISS frame buffer
(`telemetryBuffer` / `bufferPosition` / `bufferSize`), the per-motor store,
the combined reading and its invalidation flag, the KISS trigger state
machine, the global counters (`uint16_t`, kept reduced mod 2^16), the
Hobbywing parser scratch state and the Hobbywing consumption integrator
(static locals of `escSensorProcess`). -/
structure EscState where
  telemetryBuffer : List ℕ
  bufferPosition : ℕ
  bufferSize : ℕ
  escSensorData : ℕ → EscSensorData
  combinedEscSensorData : EscSensorData
  combinedDataNeedsUpdate : Bool
  escSensorTriggerState : EscTriggerState
  escTriggerTimestamp : ℕ
  escSensorMotor : ℕ
  totalTimeoutCount : ℕ
  totalCrcErrorCount : ℕ
  hwParser : HWParser
  consumptionAcc : ℚ
  lastProcessTimeMs : ℕ

/-- Point update of the per-motor store. -/
def setMotorData (data : ℕ → EscSensorData) (i : ℕ) (d : EscSensorData) :
    ℕ → EscSensorData :=
  fun j => if j = i then d else data j

/-- `isFrameComplete()`: the frame buffer is full. -/
def isFrameComplete (st : EscState) : Prop :=
  st.bufferPosition = st.bufferSize

instance (st : EscState) : Decidable (isFrameComplete st) := by
  unfold isFrameComplete; infer_instance

/-- `escSensorDataReceive(c)`: the interrupt-context producer.  A no-op once
the frame is complete; otherwise stores the byte (truncated to `uint8_t`) at
the current position and advances it. -/
def escSensorDataReceive (c : ℕ) (st : EscState) : EscState :=
  if isFrameComplete st then st
  else { st with
    telemetryBuffer := st.telemetryBuffer.set st.bufferPosition (c % 256),
    bufferPosition := st.bufferPosition + 1 }

/-- `startEscDataRead(telemetryBuffer, TELEMETRY_FRAME_SIZE)`: rearm the
frame buffer. -/
def startEscDataRead (st : EscState) : EscState :=
  { st with bufferPosition := 0, bufferSize := telemetryFrameSize }

/-- `decodeEscFrame()` from the source: if the buffer is not complete report
`PENDING`; otherwise compare the CRC8 of the first 9 bytes with byte 9.  On a
match, write all five fields of the selected motor's reading from the frame
(big-endian pairs via shift-or, exactly as the C expressions), reset its
staleness to 0 and set the invalidation flag; on a mismatch change nothing.
Returns the new state and the frame status. -/
def decodeEscFrame (st : EscState) : EscState × EscFrameStatus :=
  if ¬ isFrameComplete st then (st, .framePending)
  else
    let chksum := calculateCrc8 (st.telemetryBuffer.take (telemetryFrameSize - 1))
    let tlmsum := st.telemetryBuffer.getD (telemetryFrameSize - 1) 0
    if chksum = tlmsum then
      let tb := fun i => st.telemetryBuffer.getD i 0
      let d : EscSensorData :=
        { dataAge := 0
          temperature := (tb 0 : ℤ)
          voltage := (tb 1) <<< 8 ||| tb 2
          current := (((tb 3) <<< 8 ||| tb 4 : ℕ) : ℤ)
          consumption := (((tb 5) <<< 8 ||| tb 6 : ℕ) : ℤ)
          rpm := (tb 7) <<< 8 ||| tb 8 }
      ({ st with
          escSensorData := setMotorData st.escSensorData st.escSensorMotor d,
          combinedDataNeedsUpdate := true },
       .frameComplete)
    else
      (st, .frameFailed)

/-- `increaseDataAge()`: clamped staleness increment for the selected motor;
sets the invalidation flag when it actually increments. -/
def increaseDataAge (st : EscState) : EscState :=
  if (st.escSensorData st.escSensorMotor).dataAge < escDataInvalid then
    { st with
      escSensorData := setMotorData st.escSensorData st.escSensorMotor
        { st.escSensorData st.escSensorMotor with
          dataAge := (st.escSensorData st.escSensorMotor).dataAge + 1 },
      combinedDataNeedsUpdate := true }
  else st

/-- `selectNextMotor()`: round-robin advance modulo the motor count. -/
def selectNextMotor (motorCount : ℕ) (st : EscState) : EscState :=
  let m := st.escSensorMotor + 1
  { st with escSensorMotor := if m = motorCount then 0 else m }

/-- `isEscSensorValid(motorNumber)`: the protocol-dependent validity policy.
`portOpen` stands for `escSensorPort != NULL`. -/
def isEscSensorValid (portOpen : Bool) (protocol : EscProtocol)
    (motorCount : ℕ) (st : EscState) (motorNumber : ℕ) : Bool :=
  if ¬ portOpen then false
  else
    match protocol with
    | .kiss =>
        if motorNumber < motorCount then
          decide ((st.escSensorData motorNumber).dataAge ≤ escBatteryAgeMax)
        else if motorNumber = escSensorCombined then
          decide (st.combinedEscSensorData.dataAge ≤ escBatteryAgeMax)
        else false
    | .hobbywingV4 =>
        if motorNumber < motorCount ∨ motorNumber = escSensorCombined then
          let a := if motorNumber < motorCount then
              (st.escSensorData motorNumber).dataAge
            else st.combinedEscSensorData.dataAge
          let r := if motorNumber < motorCount then
              (st.escSensorData motorNumber).rpm
            else st.combinedEscSensorData.rpm
          decide ((0 < r ∧ a < 11) ∨ (r = 0 ∧ a < 100))
        else false

/-- `getEscSensorRPM(motorNumber)`: reads the stored rpm field directly from
the per-motor store (it takes only the store, not the full state — the C
function neither consults nor recomputes the combined reading). -/
def getEscSensorRPM (data : ℕ → EscSensorData) (motorCount : ℕ)
    (motorNumber : ℕ) : ℕ :=
  if motorNumber < motorCount then (data motorNumber).rpm else 0

/-- The combined-reading recomputation inside `getEscSensorData`: max of
staleness and temperature, sums of the other fields, then voltage and rpm
averaged by truncating division by the motor count. -/
def computeCombined (motorCount : ℕ) (data : ℕ → EscSensorData) :
    EscSensorData :=
  let c := (List.range motorCount).foldl
    (fun acc i =>
      { dataAge := max acc.dataAge (data i).dataAge
        temperature := max acc.temperature (data i).temperature
        voltage := acc.voltage + (data i).voltage
        current := acc.current + (data i).current
        consumption := acc.consumption + (data i).consumption
        rpm := acc.rpm + (data i).rpm })
    zeroSensorData
  { c with voltage := c.voltage / motorCount, rpm := c.rpm / motorCount }

/-- `getEscSensorData(motorNumber)`: the per-motor / combined accessor.  The
C function returns a pointer (`NULL` on an unsupported index or disabled
feature), modelled as `Option`; reading the combined KISS index may lazily
recompute the combined reading and clear the invalidation flag, so the new
state is returned as well. -/
def getEscSensorData (featureEnabled : Bool) (protocol : EscProtocol)
    (motorCount : ℕ) (st : EscState) (motorNumber : ℕ) :
    EscState × Option EscSensorData :=
  if ¬ featureEnabled then (st, none)
  else
    match protocol with
    | .kiss =>
        if motorNumber < motorCount then
          (st, some (st.escSensorData motorNumber))
        else if motorNumber = escSensorCombined then
          if st.combinedDataNeedsUpdate then
            let c := computeCombined motorCount st.escSensorData
            ({ st with combinedEscSensorData := c,
                       combinedDataNeedsUpdate := false }, some c)
          else (st, some st.combinedEscSensorData)
        else (st, none)
    | .hobbywingV4 =>
        if motorNumber < motorCount then (st, some (st.escSensorData 0))
        else if motorNumber = escSensorCombined then
          (st, some (st.escSensorData 0))
        else (st, none)

/-- Truncation toward zero of a rational, the C `(int32_t)` / `(int16_t)`
cast applied to a float value. -/
def ratTrunc (q : ℚ) : ℤ := Int.tdiv q.num (q.den : ℤ)

/-- The KISS protocol branch of `escSensorProcess`, one invocation of the
3-state trigger machine (source lines 507-559).  The request-telemetry signal
to the motor-control layer is an external side effect and has no state here.
The `uint16_t` error counters wrap mod 2^16. -/
def kissBranchStep (currentTimeMs : ℕ) (motorCount : ℕ) (st : EscState) :
    EscState :=
  match st.escSensorTriggerState with
  | .startup =>
      if escBoottime ≤ currentTimeMs then
        { st with escSensorTriggerState := .ready }
      else st
  | .ready =>
      { startEscDataRead st with
        escTriggerTimestamp := currentTimeMs,
        escSensorTriggerState := .pending }
  | .pending =>
      if currentTimeMs < st.escTriggerTimestamp + escRequestTimeout then
        let d := decodeEscFrame st
        match d.2 with
        | .frameComplete =>
            { selectNextMotor motorCount d.1 with
              escSensorTriggerState := .ready }
        | .frameFailed =>
            let s := selectNextMotor motorCount (increaseDataAge d.1)
            { s with escSensorTriggerState := .ready,
                     totalCrcErrorCount := (s.totalCrcErrorCount + 1) % 65536 }
        | .framePending => d.1
      else
        let s := selectNextMotor motorCount (increaseDataAge st)
        { s with escSensorTriggerState := .ready,
                 totalTimeoutCount := (s.totalTimeoutCount + 1) % 65536 }

/-- The Hobbywing packet decode inside `escSensorProcess` (source lines
582-601): big-endian sub-fields from the scratch packet, calibration curves,
then the write into motor 0's reading with staleness reset to 0.  The C
arithmetic is `float`, modelled over `ℚ`; the stores into the integer fields
truncate toward zero. -/
def hwDecodePacket (td : List ℕ) (d : EscSensorData) : EscSensorData :=
  let b := fun i => td.getD i 0
  let rpmRaw : ℕ := (b 7) <<< 16 ||| (b 8) <<< 8 ||| b 9
  let voltageRaw : ℕ := (b 10) <<< 8 ||| b 11
  let currentRaw : ℕ := (b 12) <<< 8 ||| b 13
  let tempRaw : ℕ := (b 14) <<< 8 ||| b 15
  { d with
    dataAge := 0
    temperature := ratTrunc ((calcTempHW tempRaw).getD 0)
    voltage := (ratTrunc ((voltageRaw : ℚ) / 113 * 100)).toNat
    current := ratTrunc (calcCurrHW currentRaw * 100)
    rpm := (ratTrunc ((rpmRaw : ℚ) / 100)).toNat }

/-- One iteration of the Hobbywing byte-drain loop: run the stream parser on
one byte; on packet emission decode it into motor 0 (and bump the
`totalCrcErrorCount` debug counter, as the source does); the
`totalTimeoutCount` debug counter is bumped once per drained byte. -/
def hwHandleByte (st : EscState) (dataByte : ℕ) : EscState :=
  let p := processHWv4TelemetryStream st.hwParser dataByte
  let st1 := { st with hwParser := p.1 }
  let st2 :=
    if p.2 then
      { st1 with
        escSensorData := setMotorData st1.escSensorData 0
          (hwDecodePacket p.1.telemetryData (st1.escSensorData 0)),
        totalCrcErrorCount := (st1.totalCrcErrorCount + 1) % 65536 }
    else st1
  { st2 with totalTimeoutCount := (st2.totalTimeoutCount + 1) % 65536 }

/-- The Hobbywing protocol branch of `escSensorProcess` (source lines
561-626): select motor 0, increment its `uint8_t` staleness unconditionally
(wrapping mod 256 — the source has no clamp here), drain all waiting serial
bytes through the parser, then integrate consumption from the last stored
current value over the elapsed time. -/
def hwBranchStep (currentTimeMs : ℕ) (incoming : List ℕ) (st : EscState) :
    EscState :=
  let st0 := { st with
    escSensorMotor := 0,
    escSensorData := setMotorData st.escSensorData 0
      { st.escSensorData 0 with
        dataAge := ((st.escSensorData 0).dataAge + 1) % 256 } }
  let st1 := incoming.foldl hwHandleByte st0
  let acc := st1.consumptionAcc +
    ((currentTimeMs - st1.lastProcessTimeMs : ℕ) : ℚ) *
      ((st1.escSensorData 0).current : ℚ) * 10 / (1000 * 3600)
  { st1 with
    consumptionAcc := acc,
    escSensorData := setMotorData st1.escSensorData 0
      { st1.escSensorData 0 with consumption := ratTrunc acc },
    lastProcessTimeMs := currentTimeMs }

/-- Zero one motor's output fields and the combined output fields (source
lines 632-640); staleness and temperature are left as they are. -/
def zeroMotorOutputs (st : EscState) (i : ℕ) : EscState :=
  { st with
    escSensorData := setMotorData st.escSensorData i
      { st.escSensorData i with
        voltage := 0, current := 0, consumption := 0, rpm := 0 },
    combinedEscSensorData :=
      { st.combinedEscSensorData with
        voltage := 0, current := 0, consumption := 0, rpm := 0 } }

/-- The end-of-cycle invalid-data pass of `escSensorProcess` (source lines
630-642): every motor found invalid has its output fields (and the combined
output fields) zeroed.  Runs with the port known open. -/
def zeroInvalidPass (protocol : EscProtocol) (motorCount : ℕ)
    (st : EscState) : EscState :=
  (List.range motorCount).foldl
    (fun s i =>
      if isEscSensorValid true protocol motorCount s i then s
      else zeroMotorOutputs s i)
    st

/-- `escSensorProcess(currentTimeUs)`: the periodic entry point, taking the
protocol selection, the collaborator predicates (`escSensorPort != NULL`,
`motorIsEnabled()`), the current time in ms, the bytes waiting on the serial
port (drained only by the Hobbywing branch) and the motor count. -/
def escSensorProcess (protocol : EscProtocol) (portOpen motorEnabled : Bool)
    (currentTimeMs : ℕ) (incoming : List ℕ) (motorCount : ℕ)
    (st : EscState) : EscState :=
  if ¬ (portOpen ∧ motorEnabled) then st
  else
    let st1 :=
      match protocol with
      | .kiss => kissBranchStep currentTimeMs motorCount st
      | .hobbywingV4 => hwBranchStep currentTimeMs incoming st
    zeroInvalidPass protocol motorCount st1

/-- Payload of the KISS frame used by the concrete witnesses: temperature 10,
voltage 0x0100, current 0x0002, consumption 0x0003, rpm 0x0064. -/
def exampleKissBytes : List ℕ := [10, 1, 0, 0, 2, 0, 3, 0, 100]

/-- A valid 10-byte KISS frame: the payload followed by its own CRC8. -/
def exampleKissFrame : List ℕ :=
  exampleKissBytes ++ [calculateCrc8 exampleKissBytes]

/-- A baseline concrete state used by the witnesses: frame buffer armed and
complete, all readings zero, trigger machine in `PENDING` at time 0. -/
def baseState : EscState :=
  { telemetryBuffer := List.replicate 10 0
    bufferPosition := 10
    bufferSize := 10
    escSensorData := fun _ => zeroSensorData
    combinedEscSensorData := zeroSensorData
    combinedDataNeedsUpdate := false
    escSensorTriggerState := .pending
    escTriggerTimestamp := 0
    escSensorMotor := 0
    totalTimeoutCount := 0
    totalCrcErrorCount := 0
    hwParser := hwParserInit
    consumptionAcc := 0
    lastProcessTimeMs := 0 }

/-- Baseline state with the valid example frame in the buffer. -/
def exampleFrameState : EscState :=
  { baseState with telemetryBuffer := exampleKissFrame }

/-- Baseline state with a frame whose CRC byte (1) does not match the CRC8 of
its payload (0). -/
def badCrcState : EscState :=
  { baseState with telemetryBuffer := [0, 0, 0, 0, 0, 0, 0, 0, 0, 1] }

/-- Baseline state in which motor 0's staleness sits at the invalid
sentinel. -/
def agedState : EscState :=
  { baseState with
    escSensorData := fun _ => { zeroSensorData with dataAge := 255 } }

/-- Baseline state (trigger machine still in `STARTUP`) in which motor 0 is
long invalid but still holds a nonzero voltage. -/
def agedOutputState : EscState :=
  { baseState with
    escSensorTriggerState := .startup,
    escSensorData := fun _ => { zeroSensorData with dataAge := 255, voltage := 5 } }

/-- A per-motor store in which every motor reports rpm 7. -/
def rpmExampleData : ℕ → EscSensorData :=
  fun _ => { zeroSensorData with rpm := 7 }

/-! ### Auxiliary lemmas -/

theorem lor_shift8 (a b : ℕ) (h : b < 256) : (a <<< 8) ||| b = 256 * a + b := by
  rw [Nat.shiftLeft_eq]
  calc a * 2 ^ 8 ||| b = 2 ^ 8 * a ||| b := by rw [Nat.mul_comm]
    _ = 2 ^ 8 * a + b := (Nat.mul_add_lt_is_or h a).symm
    _ = 256 * a + b := by norm_num

theorem setMotorData_same (data : ℕ → EscSensorData) (i : ℕ)
    (d : EscSensorData) : setMotorData data i d i = d := by
  simp [setMotorData]

theorem updateCrc8_lt (a b : ℕ) : updateCrc8 a b < 256 := by
  simp only [updateCrc8]
  rw [Function.iterate_succ_apply']
  split <;> exact Nat.mod_lt _ (by norm_num)

theorem updateCrc8_eq_spec (b acc : ℕ) (hb : b < 256) (hacc : acc < 256) :
    updateCrc8 b acc =
      (fun v => if v &&& 0x80 ≠ 0 then ((v <<< 1) ^^^ 0x7) % 256
                else (v <<< 1) % 256)^[8] (acc ^^^ b) := by
  simp only [updateCrc8]
  rw [Nat.mod_eq_of_lt hb, Nat.mod_eq_of_lt hacc, Nat.xor_comm b acc]
  have hfun : (fun v => if v &&& 0x80 ≠ 0 then (0x7 ^^^ (v <<< 1)) % 256
      else (v <<< 1) % 256) =
      (fun v => if v &&& 0x80 ≠ 0 then ((v <<< 1) ^^^ 0x7) % 256
      else (v <<< 1) % 256) := by
    funext v
    rw [Nat.xor_comm]
  rw [hfun]

theorem crc_fold_eq (bs : List ℕ) :
    ∀ acc, acc < 256 → (∀ b ∈ bs, b < 256) →
      bs.foldl (fun crc b => updateCrc8 b crc) acc =
      bs.foldl (fun v b =>
        (fun v => if v &&& 0x80 ≠ 0 then ((v <<< 1) ^^^ 0x7) % 256
                  else (v <<< 1) % 256)^[8] (v ^^^ b)) acc := by
  induction bs with
  | nil => intro acc _ _; rfl
  | cons b rest ih =>
      intro acc hacc hmem
      simp only [List.foldl_cons]
      rw [updateCrc8_eq_spec b acc (hmem b (by simp)) hacc]
      exact ih _ (by
        rw [← updateCrc8_eq_spec b acc (hmem b (by simp)) hacc]
        exact updateCrc8_lt b acc) (fun x hx => hmem x (by simp [hx]))

theorem crc_fold_lt (bs : List ℕ) :
    ∀ acc, acc < 256 → bs.foldl (fun crc b => updateCrc8 b crc) acc < 256 := by
  induction bs with
  | nil => intro acc h; exact h
  | cons b rest ih => intro acc _; exact ih _ (updateCrc8_lt b acc)

theorem decodeEscFrame_failed (st : EscState) (hc : isFrameComplete st)
    (hcrc : calculateCrc8 (st.telemetryBuffer.take 9) ≠
      st.telemetryBuffer.getD 9 0) :
    decodeEscFrame st = (st, .frameFailed) := by
  have h91 : telemetryFrameSize - 1 = 9 := rfl
  simp only [decodeEscFrame, h91, if_neg (not_not_intro hc), if_neg hcrc]

theorem decodeEscFrame_complete_flag (st : EscState)
    (h : (decodeEscFrame st).2 = .frameComplete) :
    (decodeEscFrame st).1.combinedDataNeedsUpdate = true := by
  by_cases h1 : ¬ isFrameComplete st
  · simp only [decodeEscFrame, if_pos h1] at h
    exact absurd h (by simp)
  · by_cases h2 : calculateCrc8 (List.take (telemetryFrameSize - 1) st.telemetryBuffer) =
        st.telemetryBuffer.getD (telemetryFrameSize - 1) 0
    · simp only [decodeEscFrame, if_neg h1, if_pos h2]
    · simp only [decodeEscFrame, if_neg h1, if_neg h2] at h
      exact absurd h (by simp)

theorem increaseDataAge_flag (st : EscState)
    (h : (st.escSensorData st.escSensorMotor).dataAge < escDataInvalid) :
    (increaseDataAge st).combinedDataNeedsUpdate = true := by
  unfold increaseDataAge
  rw [if_pos h]

theorem zeroInvalidPass_flag (protocol : EscProtocol) (motorCount : ℕ)
    (st : EscState) :
    (zeroInvalidPass protocol motorCount st).combinedDataNeedsUpdate =
      st.combinedDataNeedsUpdate := by
  unfold zeroInvalidPass
  generalize List.range motorCount = l
  induction l generalizing st with
  | nil => rfl
  | cons i rest ih =>
      simp only [List.foldl_cons]
      rw [ih]
      split <;> rfl

theorem hwHandleByte_flag (st : EscState) (b : ℕ) :
    (hwHandleByte st b).combinedDataNeedsUpdate = st.combinedDataNeedsUpdate := by
  simp only [hwHandleByte]
  split <;> rfl

theorem hwBranchStep_flag (t : ℕ) (incoming : List ℕ) (st : EscState) :
    (hwBranchStep t incoming st).combinedDataNeedsUpdate =
      st.combinedDataNeedsUpdate := by
  unfold hwBranchStep
  generalize hst0 : ({ st with
    escSensorMotor := 0,
    escSensorData := setMotorData st.escSensorData 0
      { st.escSensorData 0 with
        dataAge := ((st.escSensorData 0).dataAge + 1) % 256 } } : EscState) = st0
  have h0 : st0.combinedDataNeedsUpdate = st.combinedDataNeedsUpdate := by
    rw [← hst0]
  clear hst0
  induction incoming generalizing st0 with
  | nil => exact h0
  | cons b rest ih =>
      simp only [List.foldl_cons]
      exact ih _ ((hwHandleByte_flag st0 b).trans h0)

theorem hwProcess_flag (portOpen motorEnabled : Bool) (t : ℕ)
    (incoming : List ℕ) (motorCount : ℕ) (st : EscState) :
    (escSensorProcess .hobbywingV4 portOpen motorEnabled t incoming motorCount
      st).combinedDataNeedsUpdate = st.combinedDataNeedsUpdate := by
  unfold escSensorProcess
  split
  · rfl
  · rw [zeroInvalidPass_flag, hwBranchStep_flag]

theorem hwStep_emit_bytesRead (st : HWParser) (b : ℕ)
    (h : (processHWv4TelemetryStream st b).2 = true) : st.bytesRead = 18 := by
  unfold processHWv4TelemetryStream at h
  split at h
  · simp at h
  · split at h
    · simp at h
    · split at h
      · simp at h
      · split at h
        · split at h
          · omega
          · simp at h
        · simp at h

theorem hwStep_bytesRead_le (st : HWParser) (b : ℕ) :
    (processHWv4TelemetryStream st b).1.bytesRead ≤ st.bytesRead + 1 := by
  unfold processHWv4TelemetryStream
  split
  · simp
  · split
    · simp
    · split
      · simp
      · split
        · split
          · simp
          · simp
        · simp

theorem hwRun_no_emit (l : List ℕ) :
    ∀ st : HWParser, st.bytesRead + l.length < 19 → (hwRun st l).2 = false := by
  induction l with
  | nil => intro st _; rfl
  | cons b rest ih =>
      intro st h
      simp only [hwRun, Bool.or_eq_false_iff]
      constructor
      · by_contra hc
        have h18 := hwStep_emit_bytesRead st b
          (by revert hc; cases (processHWv4TelemetryStream st b).2 <;> simp)
        simp [List.length_cons] at h
        omega
      · apply ih
        have := hwStep_bytesRead_le st b
        simp [List.length_cons] at h
        omega

theorem calcTempHW_at_3828_eq : calcTempHW 3828 = some 1 := by
  have hs : tempSearch 0 = 1 := by decide
  have h28 : (3828 : ℕ) - 3828 = 0 := by norm_num
  have hv0 : tempVal 0 = 1 := by decide
  have hv1 : tempVal 1 = 2 := by decide
  have hb0 : tempBreak 0 = 0 := by decide
  have hb1 : tempBreak 1 = 14 := by decide
  simp only [calcTempHW, h28, hs]
  norm_num [hv0, hv1, hb0, hb1]

theorem calcTempHW_at_1123_eq : calcTempHW 1123 = none := by
  have hs : tempSearch 2705 = 26 := by decide
  have h28 : (3828 : ℕ) - 1123 = 2705 := by norm_num
  simp only [calcTempHW, h28, hs]
  norm_num

theorem calcTempHW_breakpoint_eq (k : ℕ) (h1 : 1 ≤ k) (hk : k < 25) :
    calcTempHW (3828 - tempBreak k) = some ((tempVal k : ℚ)) := by
  have hble : tempBreak k ≤ 2656 := by
    have h : ∀ m, m < 25 → tempBreak m ≤ 2656 := by decide
    exact h k hk
  have hs0 : ∀ m, m < 26 → tempSearch (tempBreak m) = m + 1 := by decide
  have e1 : 3828 - (3828 - tempBreak k) = tempBreak k := by omega
  have hno1 : ¬ 3828 < 3828 - tempBreak k := by omega
  have hno2 : ¬ (3828 - tempBreak k) < 1123 := by omega
  have hs : tempSearch (tempBreak k) = k + 1 := hs0 k (by omega)
  have hi : k + 1 < 26 := by omega
  simp only [calcTempHW, e1, hs, if_neg hno1, if_neg hno2, if_pos hi,
    Nat.add_sub_cancel, sub_self, mul_zero, zero_mul, zero_div, add_zero]

/-! ### Claim theorems -/

/-- Claim C1: for every 10-byte KISS frame whose byte 9 equals the CRC8 of
bytes 0..8, `decodeEscFrame` (with the frame buffer complete) writes the
selected motor's reading exactly as temperature = byte 0, voltage = big-endian
bytes 1-2, current = big-endian bytes 3-4, consumption = big-endian bytes 5-6,
rpm = big-endian bytes 7-8, resets that motor's staleness to 0, and reports
frame-complete (and sets the invalidation flag). -/
theorem C1_kiss_decode_valid_frame (st : EscState) (hc : isFrameComplete st)
    (hlen : st.telemetryBuffer.length = 10)
    (hbytes : ∀ b ∈ st.telemetryBuffer, b < 256)
    (hcrc : st.telemetryBuffer.getD 9 0 =
      calculateCrc8 (st.telemetryBuffer.take 9)) :
    (decodeEscFrame st).2 = .frameComplete ∧
    (decodeEscFrame st).1.escSensorData st.escSensorMotor =
      { dataAge := 0
        temperature := (st.telemetryBuffer.getD 0 0 : ℤ)
        voltage := 256 * st.telemetryBuffer.getD 1 0 + st.telemetryBuffer.getD 2 0
        current := ((256 * st.telemetryBuffer.getD 3 0 + st.telemetryBuffer.getD 4 0 : ℕ) : ℤ)
        consumption := ((256 * st.telemetryBuffer.getD 5 0 + st.telemetryBuffer.getD 6 0 : ℕ) : ℤ)
        rpm := 256 * st.telemetryBuffer.getD 7 0 + st.telemetryBuffer.getD 8 0 } ∧
    (decodeEscFrame st).1.combinedDataNeedsUpdate = true := by
  have hb : ∀ i, i < 10 → st.telemetryBuffer.getD i 0 < 256 := by
    intro i hi
    rw [List.getD_eq_getElem st.telemetryBuffer 0 (by omega)]
    exact hbytes _ (List.getElem_mem _)
  have hnn : ¬ ¬ isFrameComplete st := not_not_intro hc
  have h91 : telemetryFrameSize - 1 = 9 := rfl
  simp only [decodeEscFrame, h91, if_neg hnn]
  rw [if_pos hcrc.symm]
  refine ⟨rfl, ?_, rfl⟩
  simp only [setMotorData_same, EscSensorData.mk.injEq]
  refine ⟨trivial, trivial, ?_, ?_, ?_, ?_⟩
  · exact lor_shift8 _ _ (hb 2 (by norm_num))
  · exact congrArg (fun n : ℕ => (n : ℤ)) (lor_shift8 _ _ (hb 4 (by norm_num)))
  · exact congrArg (fun n : ℕ => (n : ℤ)) (lor_shift8 _ _ (hb 6 (by norm_num)))
  · exact lor_shift8 _ _ (hb 8 (by norm_num))

/-- Claim C1, witness: the concrete valid frame
`[10, 1, 0, 0, 2, 0, 3, 0, 100, crc]` decodes to the expected reading. -/
theorem C1_kiss_decode_valid_frame_witness :
    (decodeEscFrame exampleFrameState).2 = .frameComplete ∧
    (decodeEscFrame exampleFrameState).1.escSensorData 0 =
      { dataAge := 0, temperature := 10, voltage := 256, current := 2,
        consumption := 3, rpm := 100 } := by
  have h := C1_kiss_decode_valid_frame exampleFrameState (by decide) (by decide)
    (by decide) (by decide)
  exact ⟨h.1, h.2.1.trans (by decide)⟩

/-- Claim C2 (code bug): in the Hobbywing processing path the per-cycle
staleness increment has no clamp, so a cycle with no serial bytes waiting
wraps the `uint8_t` counter from the invalid sentinel 255 to 0 — the
staleness both exceeds-then-escapes the sentinel and decreases without any
valid decode, violating the claimed invariant. -/
theorem C2_hw_dataAge_wrap_at_invalid :
    (agedState.escSensorData 0).dataAge = escDataInvalid ∧
    ((escSensorProcess .hobbywingV4 true true 0 [] 1
      agedState).escSensorData 0).dataAge = 0 := by
  decide

/-- Claim C3, counterexample: the claim says `calc_temperature` returns
exactly 0 for every raw input ≥ 3828, but at raw = 3828 the code reaches the
interpolation and returns 1. -/
theorem C3_calcTempHW_at_3828_counterexample : ¬ (calcTempHW 3828 = some 0) := by
  rw [calcTempHW_at_3828_eq]
  simp

/-- Claim C3, amended: `calcTempHW` returns exactly 100 for raw < 1123 and
exactly 0 for raw > 3828; at raw = 3828 it returns 1 (not 0), and at
raw = 1123 the table search overruns the table (no defined result); for every
interior raw input whose transformed value 3828 − raw equals a calibration
breakpoint, it returns exactly that breakpoint's temperature. -/
theorem C3_calcTempHW_boundaries_amended :
    (∀ raw, raw < 1123 → calcTempHW raw = some 100) ∧
    (∀ raw, 3828 < raw → calcTempHW raw = some 0) ∧
    calcTempHW 3828 = some 1 ∧
    (∀ k, 1 ≤ k → k < 25 →
      calcTempHW (3828 - tempBreak k) = some ((tempVal k : ℚ))) := by
  refine ⟨?_, ?_, calcTempHW_at_3828_eq, calcTempHW_breakpoint_eq⟩
  · intro raw h
    simp only [calcTempHW, if_neg (by omega : ¬ 3828 < raw), if_pos h]
  · intro raw h
    simp only [calcTempHW, if_pos h]

/-- Claim C3, witness: concrete boundary and breakpoint evaluations. -/
theorem C3_calcTempHW_boundaries_amended_witness :
    calcTempHW 1122 = some 100 ∧ calcTempHW 3829 = some 0 ∧
    calcTempHW (3828 - tempBreak 19) = some ((tempVal 19 : ℚ)) :=
  ⟨C3_calcTempHW_boundaries_amended.1 1122 (by norm_num),
   C3_calcTempHW_boundaries_amended.2.1 3829 (by norm_num),
   C3_calcTempHW_boundaries_amended.2.2.2 19 (by norm_num) (by norm_num)⟩

/-- Claim C4, counterexample: the end-of-cycle invalid-data zeroing pass
writes a per-motor field (motor 0's voltage changes from 5 to 0) while the
invalidation flag stays clear, so not every per-motor write sets the flag. -/
theorem C4_zeroing_pass_flag_counterexample :
    (agedOutputState.escSensorData 0).voltage = 5 ∧
    agedOutputState.combinedDataNeedsUpdate = false ∧
    ((escSensorProcess .kiss true true 0 [] 1
      agedOutputState).escSensorData 0).voltage = 0 ∧
    (escSensorProcess .kiss true true 0 [] 1
      agedOutputState).combinedDataNeedsUpdate = false := by
  decide

/-- Claim C4, amended: the invalidation flag is set by every successful KISS
decode and by every staleness increment that actually increments; but the
Hobbywing processing path (including its decoder's field writes) and the
end-of-cycle invalid-data zeroing pass never change the flag — the zeroing
pass instead writes the combined reading's output fields directly. -/
theorem C4_invalidation_flag_amended :
    (∀ st : EscState, (decodeEscFrame st).2 = .frameComplete →
      (decodeEscFrame st).1.combinedDataNeedsUpdate = true) ∧
    (∀ st : EscState,
      (st.escSensorData st.escSensorMotor).dataAge < escDataInvalid →
      (increaseDataAge st).combinedDataNeedsUpdate = true) ∧
    (∀ protocol motorCount (st : EscState),
      (zeroInvalidPass protocol motorCount st).combinedDataNeedsUpdate =
        st.combinedDataNeedsUpdate) ∧
    (∀ portOpen motorEnabled t incoming motorCount (st : EscState),
      (escSensorProcess .hobbywingV4 portOpen motorEnabled t incoming
        motorCount st).combinedDataNeedsUpdate = st.combinedDataNeedsUpdate) :=
  ⟨decodeEscFrame_complete_flag, increaseDataAge_flag, zeroInvalidPass_flag,
   hwProcess_flag⟩

/-- Claim C4, witness: concrete instances of all four amended conjuncts. -/
theorem C4_invalidation_flag_amended_witness :
    (decodeEscFrame exampleFrameState).1.combinedDataNeedsUpdate = true ∧
    (increaseDataAge baseState).combinedDataNeedsUpdate = true ∧
    (zeroInvalidPass .kiss 1 agedOutputState).combinedDataNeedsUpdate = false ∧
    (escSensorProcess .hobbywingV4 true true 5 [155] 1
      agedState).combinedDataNeedsUpdate = false := by
  refine ⟨C4_invalidation_flag_amended.1 exampleFrameState (by decide),
    C4_invalidation_flag_amended.2.1 baseState (by decide), ?_, ?_⟩
  · exact (C4_invalidation_flag_amended.2.2.1 .kiss 1 agedOutputState).trans
      (by decide)
  · exact (C4_invalidation_flag_amended.2.2.2 true true 5 [155] 1
      agedState).trans (by decide)

/-- Claim C5: `calculateCrc8` equals the specified algorithm (seed 0; for
each byte XOR it into the running value, then 8 rounds of shift-left with
conditional XOR 0x07, each round truncated to 8 bits) and always yields an
8-bit result; as a pure function it is deterministic by construction. -/
theorem C5_calculateCrc8_matches_spec (bs : List ℕ)
    (h : ∀ b ∈ bs, b < 256) :
    calculateCrc8 bs = crc8SpecAlgorithm bs ∧ calculateCrc8 bs < 256 := by
  constructor
  · simpa only [calculateCrc8, crc8SpecAlgorithm] using
      crc_fold_eq bs 0 (by norm_num) h
  · exact crc_fold_lt bs 0 (by norm_num)

/-- Claim C5, witness: a concrete byte sequence. -/
theorem C5_calculateCrc8_matches_spec_witness :
    calculateCrc8 [155, 0, 255, 16] = crc8SpecAlgorithm [155, 0, 255, 16] ∧
    calculateCrc8 [155, 0, 255, 16] < 256 :=
  C5_calculateCrc8_matches_spec [155, 0, 255, 16] (by decide)

/-- Claim C6: for a complete 10-byte frame whose byte 9 differs from the CRC8
of bytes 0..8, the decode reports a checksum failure, and the KISS `PENDING`
step leaves every motor's output fields (temperature, voltage, current,
consumption, rpm) unchanged; the only per-motor change is the clamped
staleness increment of the polled motor, plus the global CRC-error counter
increment. -/
theorem C6_kiss_decode_bad_crc (t motorCount : ℕ) (st : EscState)
    (hst : st.escSensorTriggerState = .pending)
    (htime : t < st.escTriggerTimestamp + escRequestTimeout)
    (hc : isFrameComplete st)
    (hcrc : calculateCrc8 (st.telemetryBuffer.take 9) ≠
      st.telemetryBuffer.getD 9 0) :
    (decodeEscFrame st).2 = .frameFailed ∧
    (∀ j, ((kissBranchStep t motorCount st).escSensorData j).temperature =
            (st.escSensorData j).temperature ∧
          ((kissBranchStep t motorCount st).escSensorData j).voltage =
            (st.escSensorData j).voltage ∧
          ((kissBranchStep t motorCount st).escSensorData j).current =
            (st.escSensorData j).current ∧
          ((kissBranchStep t motorCount st).escSensorData j).consumption =
            (st.escSensorData j).consumption ∧
          ((kissBranchStep t motorCount st).escSensorData j).rpm =
            (st.escSensorData j).rpm) ∧
    ((kissBranchStep t motorCount st).escSensorData st.escSensorMotor).dataAge =
      (if (st.escSensorData st.escSensorMotor).dataAge < escDataInvalid
       then (st.escSensorData st.escSensorMotor).dataAge + 1
       else (st.escSensorData st.escSensorMotor).dataAge) ∧
    (∀ j, j ≠ st.escSensorMotor →
      ((kissBranchStep t motorCount st).escSensorData j).dataAge =
        (st.escSensorData j).dataAge) ∧
    (kissBranchStep t motorCount st).totalCrcErrorCount =
      (st.totalCrcErrorCount + 1) % 65536 := by
  have hd := decodeEscFrame_failed st hc hcrc
  have hdata : (kissBranchStep t motorCount st).escSensorData =
      (increaseDataAge st).escSensorData := by
    simp only [kissBranchStep, hst, if_pos htime, hd, selectNextMotor]
  have hcnt : (kissBranchStep t motorCount st).totalCrcErrorCount =
      ((increaseDataAge st).totalCrcErrorCount + 1) % 65536 := by
    simp only [kissBranchStep, hst, if_pos htime, hd, selectNextMotor]
  have hcnt2 : (increaseDataAge st).totalCrcErrorCount =
      st.totalCrcErrorCount := by
    unfold increaseDataAge; split <;> rfl
  by_cases hage : (st.escSensorData st.escSensorMotor).dataAge < escDataInvalid
  · have hinc : (increaseDataAge st).escSensorData =
        setMotorData st.escSensorData st.escSensorMotor
          { st.escSensorData st.escSensorMotor with
            dataAge := (st.escSensorData st.escSensorMotor).dataAge + 1 } := by
      simp only [increaseDataAge, if_pos hage]
    refine ⟨by rw [hd], ?_, ?_, ?_, by rw [hcnt, hcnt2]⟩
    · intro j
      rw [hdata, hinc]
      by_cases hj : j = st.escSensorMotor <;> simp [setMotorData, hj]
    · rw [hdata, hinc, if_pos hage]
      simp [setMotorData]
    · intro j hj
      rw [hdata, hinc]
      simp [setMotorData, hj]
  · have hinc : increaseDataAge st = st := by
      simp only [increaseDataAge, if_neg hage]
    refine ⟨by rw [hd], ?_, ?_, ?_, by rw [hcnt, hcnt2]⟩
    · intro j
      rw [hdata, hinc]
      exact ⟨rfl, rfl, rfl, rfl, rfl⟩
    · rw [hdata, hinc, if_neg hage]
    · intro j hj
      rw [hdata, hinc]

/-- Claim C6, witness: a concrete complete frame with CRC byte 1 against
payload CRC 0 fails, ages motor 0 from 0 to 1, keeps its fields, and bumps
the CRC-error counter. -/
theorem C6_kiss_decode_bad_crc_witness :
    (decodeEscFrame badCrcState).2 = .frameFailed ∧
    ((kissBranchStep 0 1 badCrcState).escSensorData 0).voltage =
      (badCrcState.escSensorData 0).voltage ∧
    ((kissBranchStep 0 1 badCrcState).escSensorData 0).dataAge =
      (if (badCrcState.escSensorData 0).dataAge < escDataInvalid
       then (badCrcState.escSensorData 0).dataAge + 1
       else (badCrcState.escSensorData 0).dataAge) ∧
    (kissBranchStep 0 1 badCrcState).totalCrcErrorCount =
      (badCrcState.totalCrcErrorCount + 1) % 65536 := by
  have h := C6_kiss_decode_bad_crc 0 1 badCrcState (by decide) (by decide)
    (by decide) (by decide)
  exact ⟨h.1, (h.2.1 0).2.1, h.2.2.1, h.2.2.2.2⟩

/-- Claim C7: fed a 0x9B sentinel byte while exactly one byte has been read
(and no resynchronisation skip is pending), the Hobbywing stream parser
aborts to idle and schedules the next 11 bytes to be discarded; and over the
input `[0x9B, 0x9B, 0x9B, <16 arbitrary bytes>]` from the idle state no
packet-ready result is emitted. -/
theorem C7_hw_sentinel_collision_resync :
    (∀ st : HWParser, st.skipPackets = 0 → st.bytesRead = 1 →
      processHWv4TelemetryStream st 0x9B =
        ({ st with bytesRead := 0, skipPackets := 11 }, false)) ∧
    (∀ rest : List ℕ, rest.length = 16 →
      (hwRun hwParserInit (0x9B :: 0x9B :: 0x9B :: rest)).2 = false) := by
  constructor
  · intro st h0 h1
    unfold processHWv4TelemetryStream
    rw [if_neg (by omega), if_neg (by simp [h1]), if_pos (by simp [h1])]
  · intro rest hlen
    have s1 : processHWv4TelemetryStream hwParserInit 0x9B =
        ({ hwParserInit with bytesRead := 1 }, false) := by decide
    have s2 : processHWv4TelemetryStream { hwParserInit with bytesRead := 1 }
        0x9B = ({ hwParserInit with bytesRead := 0, skipPackets := 11 },
          false) := by decide
    have s3 : processHWv4TelemetryStream
        { hwParserInit with bytesRead := 0, skipPackets := 11 } 0x9B =
        ({ hwParserInit with skipPackets := 10 }, false) := by decide
    simp only [hwRun, s1, s2, s3, Bool.false_or]
    exact hwRun_no_emit rest _ (by simp [hwParserInit, hlen])

/-- Claim C7, witness: the collision step at the concrete parser state with
one byte read, and the concrete 19-byte sequence of all 0x9B bytes. -/
theorem C7_hw_sentinel_collision_resync_witness :
    processHWv4TelemetryStream { hwParserInit with bytesRead := 1 } 0x9B =
      ({ hwParserInit with bytesRead := 0, skipPackets := 11 }, false) ∧
    (hwRun hwParserInit
      (0x9B :: 0x9B :: 0x9B :: List.replicate 16 0x9B)).2 = false := by
  constructor
  · exact C7_hw_sentinel_collision_resync.1
      { hwParserInit with bytesRead := 1 } rfl rfl
  · exact C7_hw_sentinel_collision_resync.2 (List.replicate 16 0x9B) (by simp)

/-- Claim C8: the mechanical-RPM converter returns
`electrical_rpm * 100 / (pole_count / 2)` with both divisions truncating:
it coincides with the spec formula, and for nonnegative inputs it equals the
truncating natural-number division. -/
theorem C8_calcEscRpm_spec :
    (∀ erpm poleCount, calcEscRpm erpm poleCount =
      mechanicalRpmSpec erpm poleCount) ∧
    (∀ erpm poleCount, 0 ≤ erpm →
      calcEscRpm erpm poleCount = ((erpm.toNat * 100) / (poleCount / 2) : ℕ)) := by
  constructor
  · intro e p
    rfl
  · intro e p h
    unfold calcEscRpm
    rw [← Int.toNat_of_nonneg h]
    push_cast
    rfl

/-- Claim C8, witness: 1234 erpm at 14 poles gives 123400 / 7 = 17628. -/
theorem C8_calcEscRpm_spec_witness :
    calcEscRpm 1234 14 = mechanicalRpmSpec 1234 14 ∧
    calcEscRpm 1234 14 = 17628 := by
  constructor
  · exact C8_calcEscRpm_spec.1 1234 14
  · rw [C8_calcEscRpm_spec.2 1234 14 (by norm_num)]
    decide

/-- Claim C9 (code bug): at raw input 1123 the breakpoint-search loop of
`calcTempHW` terminates with index 26, outside the claimed range 1..25, and
the subsequent interpolation reads `tempFunc[26]`, past the end of the
26-entry table (modelled as `none`). -/
theorem C9_calcTempHW_oob_at_1123 :
    tempSearch (3828 - 1123) = 26 ∧ calcTempHW 1123 = none :=
  ⟨by decide, calcTempHW_at_1123_eq⟩

/-- Claim C10: `getEscSensorRPM` returns 0 for every motor index at or above
the motor count, including the combined-reading index (which
`getEscSensorData` does support, returning a reading rather than null), and
returns the stored rpm field for an in-range index — reading only the
per-motor store, never the combined reading. -/
theorem C10_getEscSensorRPM_bounds (motorCount : ℕ)
    (hmc : motorCount ≤ maxSupportedMotors) (hpos : 0 < motorCount)
    (data : ℕ → EscSensorData) (st : EscState) :
    (∀ m, motorCount ≤ m → getEscSensorRPM data motorCount m = 0) ∧
    getEscSensorRPM data motorCount escSensorCombined = 0 ∧
    (∀ m, m < motorCount → getEscSensorRPM data motorCount m = (data m).rpm) ∧
    (getEscSensorData true .kiss motorCount st escSensorCombined).2 ≠ none := by
  have hmc8 : motorCount ≤ 8 := hmc
  refine ⟨?_, ?_, ?_, ?_⟩
  · intro m hm
    unfold getEscSensorRPM
    rw [if_neg (by omega)]
  · unfold getEscSensorRPM
    rw [if_neg (by simp only [escSensorCombined]; omega)]
  · intro m hm
    unfold getEscSensorRPM
    rw [if_pos hm]
  · have hno : ¬ (escSensorCombined < motorCount) := by
      simp only [escSensorCombined]; omega
    simp [getEscSensorData, hno]
    split <;> simp

/-- Claim C10, witness: two motors reporting rpm 7. -/
theorem C10_getEscSensorRPM_bounds_witness :
    getEscSensorRPM rpmExampleData 2 5 = 0 ∧
    getEscSensorRPM rpmExampleData 2 escSensorCombined = 0 ∧
    getEscSensorRPM rpmExampleData 2 1 = 7 ∧
    (getEscSensorData true .kiss 2 baseState escSensorCombined).2 ≠ none := by
  have h := C10_getEscSensorRPM_bounds 2 (by norm_num [maxSupportedMotors])
    (by norm_num) rpmExampleData baseState
  exact ⟨h.1 5 (by norm_num), h.2.1, (h.2.2.1 1 (by norm_num)).trans (by decide),
    h.2.2.2⟩

end EscSensor
